import Mathlib

/-!
Shallow embedding of the run-orchestration pipeline of `prism-ai-agent`
(`src/runs/models.py`, `src/runs/tasks.py`, `src/runs/tasks/*.py`,
`src/runs/tokenization.py`).

Database rows become Lean structures, each Celery task body becomes a pure
state-transition function, and every external effect (the OpenAI / Google
provider calls, JSON parsing of the provider output, base64 decoding) is a
parameter of the corresponding function, so that each branch of the Python
control flow is represented and executable.  Timestamps (`timezone.now()`)
are modelled as a `Nat` parameter `now`.
-/

/-- `RunStatus` choices from `src/runs/models.py`. -/
inductive RunStatus where
  | pending
  | running
  | completed
  | failed
deriving DecidableEq, Repr

/-- `StepStatus` choices from `src/runs/models.py`. -/
inductive StepStatus where
  | pending
  | running
  | completed
  | failed
deriving DecidableEq, Repr

/-- `StepKind` choices from `src/runs/models.py`. -/
inductive StepKind where
  | extract
  | analyze
  | image
  | audio
  | video
deriving DecidableEq, Repr

/-- `PromptKind` choices from `src/runs/models.py` (the downstream modalities). -/
inductive Modality where
  | image
  | audio
  | video
deriving DecidableEq, Repr

/-- The mutable columns of a `Step` row (`src/runs/models.py`): status,
detail, `started_at`, `finished_at`, plus the bookkeeping timestamps
`created_at` (set once on creation) and `updated_at` (`auto_now`). -/
structure StepRec where
  status : StepStatus := .pending
  detail : String := ""
  startedAt : Option Nat := none
  finishedAt : Option Nat := none
  createdAt : Nat := 0
  updatedAt : Nat := 0
deriving DecidableEq, Repr

/-- The step table of one run.  `Step` has `unique_together (run, kind)`,
so the rows of a run form at most one record per kind. -/
structure Steps where
  extract : Option StepRec := none
  analyze : Option StepRec := none
  image : Option StepRec := none
  audio : Option StepRec := none
  video : Option StepRec := none
deriving DecidableEq, Repr

def Steps.get (s : Steps) : StepKind → Option StepRec
  | .extract => s.extract
  | .analyze => s.analyze
  | .image => s.image
  | .audio => s.audio
  | .video => s.video

def Steps.set (s : Steps) : StepKind → Option StepRec → Steps
  | .extract, v => { s with extract := v }
  | .analyze, v => { s with analyze := v }
  | .image, v => { s with image := v }
  | .audio, v => { s with audio := v }
  | .video, v => { s with video := v }

/-- `options.get("count") or 3`-style Python defaulting: `None` and the
falsy number `0` both fall back to the default. -/
def orNat (o : Option Nat) (d : Nat) : Nat :=
  match o with
  | none => d
  | some 0 => d
  | some n => n

/-- `options.get("quality") or default`-style Python defaulting: `None`
and the falsy empty string both fall back to the default. -/
def orStr (o : Option String) (d : String) : String :=
  match o with
  | none => d
  | some s => if s = "" then d else s

/-- The `"image"` entry of `run.params` (`count` / `quality` / `size`). -/
structure ImageOptions where
  count : Option Nat := none
  quality : Option String := none
  size : Option String := none
deriving DecidableEq, Repr

/-- The `"audio"` entry of `run.params` (`voice` / `format`). -/
structure AudioOptions where
  voice : Option String := none
  format : Option String := none
deriving DecidableEq, Repr

/-- The `"video"` entry of `run.params` (`model` / `resolution`). -/
structure VideoOptions where
  model : Option String := none
  resolution : Option String := none
deriving DecidableEq, Repr

/-- `run.params`: the per-modality option dictionaries.  A missing or
falsy entry is `none` (the code reads `(run.params or {}).get(...) or {}`). -/
structure Params where
  image : Option ImageOptions := none
  audio : Option AudioOptions := none
  video : Option VideoOptions := none
deriving DecidableEq, Repr

/-- The columns of a `Run` row used by the pipeline (`src/runs/models.py`). -/
structure RunState where
  status : RunStatus := .pending
  startedAt : Option Nat := none
  finishedAt : Option Nat := none
  updatedAt : Nat := 0
  requestedModalities : List Modality := []
  params : Params := {}
  orchestratorProvider : String := ""
  orchestratorModel : String := ""
  orchestrationPrompt : String := ""
deriving DecidableEq, Repr

/-- The `Prompt` rows of a run, keyed by kind (`unique_together (run, kind)`);
only the `content` column is tracked (`metadata` and the `step` link hold
provenance the pipeline logic never branches on). -/
structure Prompts where
  image : Option String := none
  audio : Option String := none
  video : Option String := none
deriving DecidableEq, Repr

def Prompts.get (p : Prompts) : Modality → Option String
  | .image => p.image
  | .audio => p.audio
  | .video => p.video

def Prompts.set (p : Prompts) : Modality → Option String → Prompts
  | .image, v => { p with image := v }
  | .audio, v => { p with audio := v }
  | .video, v => { p with video := v }

/-- An `Asset` row produced by a generation task: its kind and the
provenance metadata the tasks record (`provider`, `model`, `mock`). -/
structure AssetRec where
  kind : Modality
  provider : String
  model : String
  mock : Bool := false
deriving DecidableEq, Repr

/-- The database state of a single run: the run row, its step rows,
its prompt rows and its asset rows. -/
structure PState where
  run : RunState := {}
  steps : Steps := {}
  prompts : Prompts := {}
  assets : List AssetRec := []
deriving DecidableEq, Repr

/-- The Celery tasks that `.delay(...)` can enqueue. -/
inductive TaskKind where
  | genImages
  | genAudio
  | genVideo
deriving DecidableEq, Repr

/-- The Django settings the pipeline reads (with the `getattr` defaults
used in the source). -/
structure Settings where
  openaiApiKey : String := ""
  openaiResponsesModel : String := "gpt-5"
  openaiImageQuality : String := "medium"
  openaiImageSize : String := "1024x1536"
  openaiImageModel : String := "gpt-image-1"
  openaiAudioVoice : String := "ash"
  openaiAudioFormat : String := "mp3"
  openaiAudioModel : String := "gpt-4o-mini-tts"
  openaiAudioSystemPrompt : String := "Speak in an emotive and friendly tone."
  googleApiKey : String := ""
  googleVeoFastModel : String := "veo-3.0-fast-generate-001"
  googleVeoDefaultResolution : String := "720p"
deriving DecidableEq, Repr

/-- `_expected_step_kinds` from `src/runs/tasks/common.py` (the package
pipeline): ANALYZE always, IMAGE and AUDIO when requested.  The source
ends with the comment "Video will be appended here once implemented.",
so VIDEO is never expected. -/
def expectedStepKinds (mods : List Modality) : List StepKind :=
  [StepKind.analyze]
    ++ (if mods.contains .image then [StepKind.image] else [])
    ++ (if mods.contains .audio then [StepKind.audio] else [])

/-- `_expected_step_kinds` from the legacy `src/runs/tasks.py`: ANALYZE
always and IMAGE when requested ("Additional modalities (audio/video)
will be added here when implemented."). -/
def legacyExpectedStepKinds (mods : List Modality) : List StepKind :=
  [StepKind.analyze]
    ++ (if mods.contains .image then [StepKind.image] else [])

/-- `_maybe_finalize_run` from `src/runs/tasks/common.py`: over the
existing steps whose kind is expected, FAILED wins, then COMPLETED when
every expected kind exists and is completed, else RUNNING; with no
matching step row at all the run is left untouched. -/
def maybeFinalizeRun (now : Nat) (s : PState) : PState :=
  let expected := expectedStepKinds s.run.requestedModalities
  let present := expected.filter (fun k => (s.steps.get k).isSome)
  if present.isEmpty then s
  else if present.any (fun k => (s.steps.get k).map StepRec.status = some .failed) then
    { s with run := { s.run with status := .failed, finishedAt := some now, updatedAt := now } }
  else if expected.all (fun k => (s.steps.get k).map StepRec.status = some .completed) then
    { s with run := { s.run with status := .completed, finishedAt := some now, updatedAt := now } }
  else
    { s with run := { s.run with status := .running, finishedAt := none, updatedAt := now } }

/-- `_maybe_finalize_run` from the legacy `src/runs/tasks.py` (identical
body but over the legacy expected kinds). -/
def legacyMaybeFinalizeRun (now : Nat) (s : PState) : PState :=
  let expected := legacyExpectedStepKinds s.run.requestedModalities
  let present := expected.filter (fun k => (s.steps.get k).isSome)
  if present.isEmpty then s
  else if present.any (fun k => (s.steps.get k).map StepRec.status = some .failed) then
    { s with run := { s.run with status := .failed, finishedAt := some now, updatedAt := now } }
  else if expected.all (fun k => (s.steps.get k).map StepRec.status = some .completed) then
    { s with run := { s.run with status := .completed, finishedAt := some now, updatedAt := now } }
  else
    { s with run := { s.run with status := .running, finishedAt := none, updatedAt := now } }

/-- `_mark_step_failed` from `src/runs/tasks/common.py`: set the step to
FAILED with the message and `finished_at`, then set the run to FAILED
with `finished_at`, both saves touching `updated_at`. -/
def markStepFailed (k : StepKind) (msg : String) (now : Nat) (s : PState) : PState :=
  let steps1 := s.steps.set k ((s.steps.get k).map fun r =>
    { r with status := .failed, detail := msg, finishedAt := some now, updatedAt := now })
  { s with steps := steps1,
           run := { s.run with status := .failed, finishedAt := some now, updatedAt := now } }

/-- `Step.objects.get_or_create(run=run, kind=k)`: reuse the existing row
or create one with the model defaults (status PENDING). -/
def Steps.getOrCreate (st : Steps) (k : StepKind) (now : Nat) : StepRec × Steps :=
  match st.get k with
  | some r => (r, st)
  | none =>
    let r : StepRec := { createdAt := now, updatedAt := now }
    (r, st.set k (some r))

/-- One primitive column write of a pipeline transaction. -/
inductive PUpd where
  | setRunStatus (v : RunStatus)
  | setRunFinishedAt (v : Option Nat)
  | touchRun (now : Nat)
  | getOrCreateStep (k : StepKind) (now : Nat)
  | setStepStatus (k : StepKind) (v : StepStatus)
  | setStepDetail (k : StepKind) (v : String)
  | setStepFinishedAt (k : StepKind) (v : Option Nat)
  | touchStep (k : StepKind) (now : Nat)
deriving DecidableEq, Repr

/-- Apply one primitive write to the database state. -/
def applyUpd (s : PState) : PUpd → PState
  | .setRunStatus v => { s with run := { s.run with status := v } }
  | .setRunFinishedAt v => { s with run := { s.run with finishedAt := v } }
  | .touchRun now => { s with run := { s.run with updatedAt := now } }
  | .getOrCreateStep k now => { s with steps := (s.steps.getOrCreate k now).2 }
  | .setStepStatus k v =>
    { s with steps := s.steps.set k ((s.steps.get k).map fun r => { r with status := v }) }
  | .setStepDetail k v =>
    { s with steps := s.steps.set k ((s.steps.get k).map fun r => { r with detail := v }) }
  | .setStepFinishedAt k v =>
    { s with steps := s.steps.set k ((s.steps.get k).map fun r => { r with finishedAt := v }) }
  | .touchStep k now =>
    { s with steps := s.steps.set k ((s.steps.get k).map fun r => { r with updatedAt := now }) }

/-- `with transaction.atomic(): ...` over a body of primitive writes: if
the transaction commits, all writes are applied in order; if it aborts,
none are and the database state is untouched. -/
def runAtomic (ops : List PUpd) (commit : Bool) (s : PState) : PState :=
  if commit then ops.foldl applyUpd s else s

/-- The write list of `_mark_run_failed` (`src/runs/tasks/common.py`):
save the run as FAILED with `finished_at`, then `get_or_create` the
ANALYZE step and save it as FAILED with the message and `finished_at`. -/
def markRunFailedOps (msg : String) (now : Nat) : List PUpd :=
  [.setRunStatus .failed, .setRunFinishedAt (some now), .touchRun now,
   .getOrCreateStep .analyze now,
   .setStepStatus .analyze .failed, .setStepDetail .analyze msg,
   .setStepFinishedAt .analyze (some now), .touchStep .analyze now]

/-- `_mark_run_failed` itself: its transaction committing. -/
def markRunFailed (msg : String) (now : Nat) (s : PState) : PState :=
  runAtomic (markRunFailedOps msg now) true s

/-- Python `str.strip()` (no argument): drop whitespace from both ends. -/
def pyStrip (s : String) : String :=
  String.mk (((s.data.dropWhile Char.isWhitespace).reverse.dropWhile Char.isWhitespace).reverse)

/-- Python `str.rstrip()` (no argument): drop whitespace from the right end. -/
def pyRstrip (s : String) : String :=
  String.mk ((s.data.reverse.dropWhile Char.isWhitespace).reverse)

/-- Python `str.title()` as used on single-word voice names. -/
def pyTitle (s : String) : String :=
  String.intercalate " " ((s.splitOn " ").map String.capitalize)

/-- Detail text written by `_queue_image_generation`. -/
def imageQueueDetail (cfg : Settings) (p : Params) : String :=
  let opts := p.image.getD {}
  let count := orNat opts.count 3
  let quality := orStr opts.quality cfg.openaiImageQuality
  let size := orStr opts.size cfg.openaiImageSize
  "Queued GPT-Image-1 generation (" ++ toString count ++ " image(s), "
    ++ quality ++ " quality, " ++ size ++ ")."

/-- Detail text written by `_queue_audio_generation`. -/
def audioQueueDetail (cfg : Settings) (p : Params) : String :=
  let opts := p.audio.getD {}
  let voice := (orStr opts.voice cfg.openaiAudioVoice).toLower
  let fmt := (orStr opts.format cfg.openaiAudioFormat).toLower
  "Queued " ++ cfg.openaiAudioModel ++ " narration with " ++ pyTitle voice
    ++ " voice (" ++ fmt.toUpper ++ ")."

/-- Detail text written by `_queue_video_generation`. -/
def videoQueueDetail (cfg : Settings) (p : Params) : String :=
  let opts := p.video.getD {}
  let modelName := orStr opts.model cfg.googleVeoFastModel
  let resolution := (orStr opts.resolution cfg.googleVeoDefaultResolution).toLower
  "Queued Veo video render via " ++ modelName ++ " (" ++ resolution.toUpper ++ ")."

/-- `_queue_image_generation` (`src/runs/tasks/orchestrator.py`):
`get_or_create` the IMAGE step; if it is RUNNING or COMPLETED return
without queueing; otherwise reset it to PENDING (clearing `started_at`
and `finished_at`, writing the queue detail) and enqueue
`generate_images_for_run`. -/
def queueImageGeneration (cfg : Settings) (now : Nat) (s : PState) : PState × List TaskKind :=
  let g := s.steps.getOrCreate .image now
  let stp := g.1
  let steps1 := g.2
  if stp.status = .running then ({ s with steps := steps1 }, [])
  else if stp.status = .completed then ({ s with steps := steps1 }, [])
  else
    let r2 := { stp with status := StepStatus.pending,
                         detail := imageQueueDetail cfg s.run.params,
                         startedAt := none, finishedAt := none, updatedAt := now }
    ({ s with steps := steps1.set .image (some r2) }, [TaskKind.genImages])

/-- `_queue_audio_generation` (`src/runs/tasks/orchestrator.py`): same
guarded reset for the AUDIO step, enqueueing `generate_audio_for_run`. -/
def queueAudioGeneration (cfg : Settings) (now : Nat) (s : PState) : PState × List TaskKind :=
  let g := s.steps.getOrCreate .audio now
  let stp := g.1
  let steps1 := g.2
  if stp.status = .running then ({ s with steps := steps1 }, [])
  else if stp.status = .completed then ({ s with steps := steps1 }, [])
  else
    let r2 := { stp with status := StepStatus.pending,
                         detail := audioQueueDetail cfg s.run.params,
                         startedAt := none, finishedAt := none, updatedAt := now }
    ({ s with steps := steps1.set .audio (some r2) }, [TaskKind.genAudio])

/-- `_queue_video_generation` (`src/runs/tasks/orchestrator.py`): same
guarded reset for the VIDEO step, enqueueing `generate_video_for_run`. -/
def queueVideoGeneration (cfg : Settings) (now : Nat) (s : PState) : PState × List TaskKind :=
  let g := s.steps.getOrCreate .video now
  let stp := g.1
  let steps1 := g.2
  if stp.status = .running then ({ s with steps := steps1 }, [])
  else if stp.status = .completed then ({ s with steps := steps1 }, [])
  else
    let r2 := { stp with status := StepStatus.pending,
                         detail := videoQueueDetail cfg s.run.params,
                         startedAt := none, finishedAt := none, updatedAt := now }
    ({ s with steps := steps1.set .video (some r2) }, [TaskKind.genVideo])

/-- Python `x or timezone.now()` on an optional timestamp. -/
def orNow (o : Option Nat) (now : Nat) : Option Nat :=
  match o with
  | some t => some t
  | none => some now

/-- One element of the `data` list of an OpenAI image response:
`b64_json` missing, `b64_json` present but base64-undecodable, or a
decodable payload. -/
inductive ImgItem where
  | noB64
  | badB64
  | good
deriving DecidableEq, Repr

def ImgItem.isGood : ImgItem → Bool
  | .good => true
  | _ => false

/-- `generate_images_for_run` (`src/runs/tasks/image.py`).  The outcome of
`client.images.generate` is the `providerResult` parameter: an
`OpenAIError` message, or the image `data` list (already `[]` when the
response carried no `data`).  `found` is whether `Run.objects.get`
succeeds; a missing IMAGE step row returns silently. -/
def generateImagesForRun (cfg : Settings) (providerResult : Except String (List ImgItem))
    (now : Nat) (found : Bool) (s : PState) : PState :=
  if !found then s else
  match s.steps.get .image with
  | none => s
  | some _ =>
    match s.prompts.get .image with
    | none => markStepFailed .image "No stored image prompt to process." now s
    | some _ =>
      let opts := s.run.params.image.getD {}
      let count0 := orNat opts.count 3
      let quality0 := orStr opts.quality cfg.openaiImageQuality
      let size0 := orStr opts.size cfg.openaiImageSize
      let count := max 1 (min count0 3)
      let quality := if quality0 = "low" ∨ quality0 = "medium" ∨ quality0 = "high"
        then quality0 else "medium"
      let size := if size0 = "1024x1024" ∨ size0 = "1024x1536" ∨ size0 = "1536x1024"
        then size0 else cfg.openaiImageSize
      let s1 : PState := { s with steps := s.steps.set .image ((s.steps.get .image).map fun r =>
        { r with status := StepStatus.running, startedAt := orNow r.startedAt now,
                 detail := "Generating " ++ toString count ++ " GPT-Image-1 render(s) at "
                   ++ quality ++ " quality, " ++ size ++ ".",
                 updatedAt := now }) }
      if cfg.openaiApiKey = "" then
        markStepFailed .image "OpenAI API key is not configured." now s1
      else match providerResult with
      | .error e => markStepFailed .image ("OpenAI error: " ++ e) now s1
      | .ok data =>
        if data.isEmpty then markStepFailed .image "OpenAI returned no image data." now s1
        else
          let s2 : PState := { s1 with assets := s1.assets.filter (fun a => a.kind != Modality.image) }
          let createdCount := data.countP ImgItem.isGood
          let imgAsset : AssetRec :=
            { kind := Modality.image, provider := "openai", model := cfg.openaiImageModel, mock := false }
          let s3 : PState := { s2 with assets := s2.assets ++ List.replicate createdCount imgAsset }
          if createdCount = 0 then
            markStepFailed .image "Image decoding failed for all renders." now s3
          else
            let s4 : PState := { s3 with steps := s3.steps.set .image ((s3.steps.get .image).map fun r =>
              { r with status := StepStatus.completed, finishedAt := some now,
                       detail := "Saved " ++ toString createdCount ++ " GPT-Image-1 render(s).",
                       updatedAt := now }) }
            maybeFinalizeRun now s4

/-- `_finish_audio_step` (`src/runs/tasks/audio.py`): mark the AUDIO step
COMPLETED with the detail, then re-evaluate the run. -/
def finishAudioStep (detail : String) (now : Nat) (s : PState) : PState :=
  let s1 : PState := { s with steps := s.steps.set .audio ((s.steps.get .audio).map fun r =>
    { r with status := StepStatus.completed, detail := detail, finishedAt := some now,
             updatedAt := now }) }
  maybeFinalizeRun now s1

/-- `_complete_audio_with_mock` (`src/runs/tasks/audio.py`): replace the
run audio assets with the generated placeholder WAV (provider `"mock"`,
`mock` metadata flag set) and complete the step. -/
def completeAudioWithMock (cfg : Settings) (reason : Option String) (now : Nat)
    (s : PState) : PState :=
  let detailBase := "Generated placeholder narration (mock WAV)."
  let detail := match reason with
    | some r => pyStrip (detailBase ++ " " ++ r)
    | none => detailBase
  let s1 : PState := { s with assets := (s.assets.filter (fun a => a.kind != Modality.audio))
    ++ [{ kind := Modality.audio, provider := "mock",
          model := cfg.openaiAudioModel ++ " (mock)", mock := true }] }
  finishAudioStep detail now s1

/-- An OpenAI text-to-speech response: the bytes extracted from its
`content` / `iter_bytes` / `read` surface (`none` when every extraction
came back empty). -/
structure AudioResp where
  binary : Option String := none
deriving DecidableEq, Repr

/-- `generate_audio_for_run` (`src/runs/tasks/audio.py`).  The outcome of
`client.audio.speech.create` is the `providerResult` parameter;
`durationNote` is the already-formatted duration suffix of the success
detail (empty when no duration header is present). -/
def generateAudioForRun (cfg : Settings) (providerResult : Except String AudioResp)
    (durationNote : String) (now : Nat) (found : Bool) (s : PState) : PState :=
  if !found then s else
  match s.steps.get .audio with
  | none => s
  | some _ =>
    match s.prompts.get .audio with
    | none => markStepFailed .audio "No stored audio prompt to process." now s
    | some _ =>
      let opts := s.run.params.audio.getD {}
      let voice := (orStr opts.voice cfg.openaiAudioVoice).toLower
      let fmt := (orStr opts.format cfg.openaiAudioFormat).toLower
      let s1 : PState := { s with steps := s.steps.set .audio ((s.steps.get .audio).map fun r =>
        { r with status := StepStatus.running, startedAt := orNow r.startedAt now,
                 detail := "Rendering narration via " ++ cfg.openaiAudioModel ++ " ("
                   ++ pyTitle voice ++ " • " ++ fmt.toUpper ++ ").",
                 updatedAt := now }) }
      if cfg.openaiApiKey = "" then
        completeAudioWithMock cfg (some "No API key configured.") now s1
      else match providerResult with
      | .error e =>
        completeAudioWithMock cfg (some ("Fell back after OpenAI error: " ++ e)) now s1
      | .ok resp =>
        match resp.binary with
        | none => completeAudioWithMock cfg (some "OpenAI returned no audio data.") now s1
        | some _ =>
          let s2 : PState := { s1 with assets := (s1.assets.filter (fun a => a.kind != Modality.audio))
            ++ [{ kind := Modality.audio, provider := "openai",
                  model := cfg.openaiAudioModel, mock := false }] }
          finishAudioStep ("Saved narration via " ++ cfg.openaiAudioModel ++ " ("
            ++ pyTitle voice ++ " • " ++ fmt.toUpper ++ ")" ++ durationNote ++ ".") now s2

/-- `_finish_video_step` (`src/runs/tasks/video.py`): mark the VIDEO step
COMPLETED with the detail, then re-evaluate the run. -/
def finishVideoStep (detail : String) (now : Nat) (s : PState) : PState :=
  let s1 : PState := { s with steps := s.steps.set .video ((s.steps.get .video).map fun r =>
    { r with status := StepStatus.completed, detail := detail, finishedAt := some now,
             updatedAt := now }) }
  maybeFinalizeRun now s1

/-- The external outcomes of one `generate_video_for_run` invocation:
client construction, config construction, the `generate_videos` call,
the polling loop, the `generated_videos` list (each entry recording
whether its `video` handle is present) and the byte download. -/
structure VideoEnv where
  clientInitOk : Bool := true
  configOk : Bool := true
  generateOk : Bool := true
  pollOk : Bool := true
  generatedVideos : List Bool := []
  downloadedBytes : Option String := none
deriving DecidableEq, Repr

/-- `generate_video_for_run` (`src/runs/tasks/video.py`). -/
def generateVideoForRun (cfg : Settings) (env : VideoEnv) (now : Nat) (found : Bool)
    (s : PState) : PState :=
  if !found then s else
  match s.steps.get .video with
  | none => s
  | some _ =>
    match s.prompts.get .video with
    | none => markStepFailed .video "No stored video prompt to process." now s
    | some _ =>
      let opts := s.run.params.video.getD {}
      let modelName := orStr opts.model cfg.googleVeoFastModel
      let resolution := (orStr opts.resolution cfg.googleVeoDefaultResolution).toLower
      let s1 : PState := { s with steps := s.steps.set .video ((s.steps.get .video).map fun r =>
        { r with status := StepStatus.running, startedAt := orNow r.startedAt now,
                 detail := "Rendering video via " ++ modelName ++ " at "
                   ++ resolution.toUpper ++ " with Veo.",
                 updatedAt := now }) }
      if cfg.googleApiKey = "" then
        markStepFailed .video "Google API key is not configured." now s1
      else if !env.clientInitOk then
        markStepFailed .video "Could not initialize Google Veo client." now s1
      else if !env.configOk then
        markStepFailed .video "Could not configure Google Veo request." now s1
      else if !env.generateOk then
        markStepFailed .video "Google Veo API error during video generation." now s1
      else if !env.pollOk then
        markStepFailed .video "Failed while polling Google Veo for completion." now s1
      else
        match env.generatedVideos with
        | [] => markStepFailed .video "Google Veo returned an empty response." now s1
        | hasHandle :: _ =>
          if !hasHandle then
            markStepFailed .video "Google Veo response missing video handle." now s1
          else
            match env.downloadedBytes with
            | none => markStepFailed .video "Could not download generated video content." now s1
            | some _ =>
              let s2 : PState := { s1 with assets := (s1.assets.filter (fun a => a.kind != Modality.video))
                ++ [{ kind := Modality.video, provider := "google",
                      model := modelName, mock := false }] }
              finishVideoStep ("Generated Veo video at " ++ resolution.toUpper
                ++ " using " ++ modelName ++ ".") now s2

/-- `_schedule_downstream_generation` (`src/runs/tasks/orchestrator.py`):
queue the image, audio and video generations for the requested
modalities, in that order, collecting the enqueued Celery tasks. -/
def scheduleDownstreamGeneration (cfg : Settings) (now : Nat) (s : PState) : PState × List TaskKind :=
  let modalities := s.run.requestedModalities
  let r1 := if modalities.contains .image
    then queueImageGeneration cfg now s else (s, [])
  let r2 := if modalities.contains .audio
    then queueAudioGeneration cfg now r1.1 else (r1.1, [])
  let r3 := if modalities.contains .video
    then queueVideoGeneration cfg now r2.1 else (r2.1, [])
  (r3.1, r1.2 ++ r2.2 ++ r3.2)

/-- The JSON object returned by the orchestration model, holding the
values of the `image_prompt` / `audio_prompt` / `video_prompt` keys
(`none` when the key is missing or null). -/
structure Payload where
  imagePrompt : Option String := none
  audioPrompt : Option String := none
  videoPrompt : Option String := none
deriving DecidableEq, Repr

/-- `payload.get(f"{modality}_prompt")`. -/
def Payload.get (p : Payload) : Modality → Option String
  | .image => p.imagePrompt
  | .audio => p.audioPrompt
  | .video => p.videoPrompt

/-- Python falsiness of an optional string (`if not prompt_text`). -/
def isBlank (o : Option String) : Bool :=
  match o with
  | none => true
  | some s => s.isEmpty

/-- The string value of a `PromptKind` member. -/
def modalityStr : Modality → String
  | .image => "image"
  | .audio => "audio"
  | .video => "video"

/-- `_build_prompt_instruction` (`src/runs/tasks/orchestrator.py`). -/
def buildPromptInstruction (mods : List Modality) : String :=
  let readable := String.intercalate ", "
    ((mods.map modalityStr).mergeSort (fun a b => decide (a ≤ b)))
  let audioClause := if mods.contains .audio then
    " For the audio_prompt, output only the final narration script the voice should speak."
      ++ " It must be a single block of plain sentences "
      ++ "(no headings, bullet points, role labels, or stage directions)."
      ++ " Omit music/SFX cues and production guidance."
      ++ " Keep it concise enough to be delivered in about 20 seconds (~55-70 words)."
    else ""
  let videoClause := if mods.contains .video then
    " For the video_prompt, design a concise storyboard for Google Veo."
      ++ " Limit the action to about 8 seconds, keep shot directions tight,"
      ++ " and stick to 16:9 framing suitable for 720p or 1080p output."
      ++ " Do not reference any system instructions."
    else ""
  "You are a creative director generating downstream prompts for generative models. "
    ++ "Return a JSON object with the keys \x27<modality>_prompt\x27 for each requested modality. "
    ++ "Each prompt should be detailed and reference the source material faithfully. "
    ++ "Paraphrase rather than quote the original text."
    ++ audioClause ++ videoClause
    ++ " Requested modalities: " ++ readable ++ "."

/-- The body of the prompt-persisting loop of `generate_prompts_for_run`:
`Prompt.objects.update_or_create` for a modality whose payload value is
truthy, a no-op otherwise. -/
def storePrompt (payload : Payload) (pr : Prompts) (m : Modality) : Prompts :=
  if isBlank (payload.get m) then pr else pr.set m (payload.get m)

/-- Result of one `generate_prompts_for_run` invocation: the final
database state, the Celery tasks enqueued by `.delay(...)`, and whether
`client.responses.create` was actually called. -/
structure OrkResult where
  state : PState
  tasks : List TaskKind
  calledProvider : Bool
deriving DecidableEq, Repr

/-- The final `transaction.atomic` block of `generate_prompts_for_run`
followed by `_schedule_downstream_generation` and `_maybe_finalize_run`:
store every truthy `<modality>_prompt` of the payload; when none was
stored, mark the re-fetched ANALYZE step and the run FAILED and enqueue
nothing; otherwise mark the ANALYZE step COMPLETED, queue the requested
downstream generations and re-evaluate the run. -/
def persistPromptsAndSchedule (cfg : Settings) (payload : Payload) (now : Nat)
    (mods : List Modality) (s1 : PState) : OrkResult :=
  let saved := mods.countP (fun m => !(isBlank (payload.get m)))
  let prompts1 := mods.foldl (storePrompt payload) s1.prompts
  if saved = 0 then
    ⟨{ s1 with prompts := prompts1,
               steps := s1.steps.set .analyze ((s1.steps.get .analyze).map fun a =>
                 { a with status := StepStatus.failed,
                          detail := "OpenAI response did not include any prompts.",
                          finishedAt := some now, updatedAt := now }),
               run := { s1.run with status := RunStatus.failed, finishedAt := some now,
                                    updatedAt := now } }, [], true⟩
  else
    let s2 : PState := { s1 with
      prompts := prompts1,
      steps := s1.steps.set .analyze ((s1.steps.get .analyze).map fun a =>
        { a with status := StepStatus.completed, finishedAt := some now,
                 detail := "Stored OpenAI prompts for downstream generation ("
                   ++ toString saved ++ " modalities).",
                 updatedAt := now }) }
    let sched := scheduleDownstreamGeneration cfg now s2
    ⟨maybeFinalizeRun now sched.1, sched.2, true⟩

/-- The first `transaction.atomic` block of `generate_prompts_for_run`
plus the `orchestration_prompt` queryset update: set the run RUNNING
(recording provider, model and start time), `get_or_create` the ANALYZE
step under `select_for_update` and set it RUNNING with its detail. -/
def markAnalyzeRunning (cfg : Settings) (now : Nat) (mods : List Modality) (s : PState) :
    PState :=
  let run1 := { s.run with
    status := RunStatus.running, startedAt := orNow s.run.startedAt now,
    orchestratorProvider := "openai",
    orchestratorModel := cfg.openaiResponsesModel, updatedAt := now }
  let g := s.steps.getOrCreate .analyze now
  let a0 := g.1
  let steps0 := g.2
  let a1 := { a0 with status := StepStatus.running, startedAt := orNow a0.startedAt now,
                      detail := "Calling OpenAI to craft modality prompts.", updatedAt := now }
  { s with run := { run1 with orchestrationPrompt := buildPromptInstruction mods },
           steps := steps0.set .analyze (some a1) }

/-- `generate_prompts_for_run` (`src/runs/tasks/orchestrator.py`).
External outcomes are parameters: `found` is the `Run.objects.get`
lookup, `providerResult` the `client.responses.create` call (error
message, or the `output_text` attribute which may be absent), and
`parseResult` the `json.loads` of a non-blank output text.  `mods` is
the task argument `modalities` (the downstream scheduling reads
`run.requested_modalities` from the state instead, as the source does). -/
def generatePromptsForRun (cfg : Settings) (providerResult : Except String (Option String))
    (parseResult : Except String Payload) (now : Nat) (found : Bool)
    (mods : List Modality) (s : PState) : OrkResult :=
  if !found then ⟨s, [], false⟩
  else if cfg.openaiApiKey = "" then
    ⟨markRunFailed "OpenAI API key is not configured." now s, [], false⟩
  else if mods.isEmpty then
    ⟨markRunFailed "At least one modality must be requested." now s, [], false⟩
  else
    let s1 := markAnalyzeRunning cfg now mods s
    match providerResult with
    | .error e => ⟨markRunFailed ("OpenAI error: " ++ e) now s1, [], true⟩
    | .ok outputText =>
      if isBlank outputText then
        ⟨markRunFailed "OpenAI returned an empty response." now s1, [], true⟩
      else match parseResult with
      | .error e => ⟨markRunFailed ("Could not parse OpenAI response: " ++ e) now s1, [], true⟩
      | .ok payload => persistPromptsAndSchedule cfg payload now mods s1

/-- A tokenizer as used through tiktoken: an encoder to token ids and the
matching decoder. -/
structure Encoding where
  encode : String → List Nat
  decode : List Nat → String

/-- `truncate_to_limit` (`src/runs/tokenization.py`): strip the text,
return `""` for blank input or a non-positive limit, return the stripped
text whole when it fits the token budget, otherwise decode the first
`limit` tokens, right-strip, and append the truncation marker. -/
def truncateToLimit (enc : Encoding) (text : String) (limit : Int) : String :=
  let cleaned := pyStrip text
  if cleaned = "" ∨ limit ≤ 0 then ""
  else
    let tokens := enc.encode cleaned
    if (tokens.length : Int) ≤ limit then cleaned
    else pyRstrip (enc.decode (tokens.take limit.toNat)) ++ "\n[truncated]"

/-- One database transaction of the package pipeline that touches a
`Step` row: where it lives, whether the step row is fetched with
`select_for_update()` inside that transaction, and whether it writes
the step `status` column. -/
structure StepTxn where
  location : String
  lockedStepFetch : Bool
  writesStepStatus : Bool
deriving DecidableEq, Repr

/-- Every step-row transaction of the background tasks in
`src/runs/tasks/` (the package pipeline), read off the source. -/
def pipelineStepTxns : List StepTxn :=
  [ -- orchestrator.py 98-121: select_for_update().get_or_create, sets RUNNING
    { location := "orchestrator.generate_prompts_for_run analyze-running",
      lockedStepFetch := true, writesStepStatus := true },
    -- orchestrator.py 191-232: select_for_update().get, sets COMPLETED or FAILED
    { location := "orchestrator.generate_prompts_for_run persist-prompts",
      lockedStepFetch := true, writesStepStatus := true },
    -- orchestrator.py 264-287: select_for_update().get_or_create, resets to PENDING
    { location := "orchestrator._queue_audio_generation",
      lockedStepFetch := true, writesStepStatus := true },
    -- orchestrator.py 308-333: select_for_update().get_or_create, resets to PENDING
    { location := "orchestrator._queue_image_generation",
      lockedStepFetch := true, writesStepStatus := true },
    -- orchestrator.py 356-379: select_for_update().get_or_create, resets to PENDING
    { location := "orchestrator._queue_video_generation",
      lockedStepFetch := true, writesStepStatus := true },
    -- common.py 19-27: plain get_or_create (no select_for_update), sets FAILED
    { location := "common._mark_run_failed",
      lockedStepFetch := false, writesStepStatus := true },
    -- common.py 80-87: saves a step object fetched outside the transaction
    -- without any select_for_update, sets FAILED
    { location := "common._mark_step_failed",
      lockedStepFetch := false, writesStepStatus := true },
    -- image.py 60-65: select_for_update().get, sets RUNNING
    { location := "image.generate_images_for_run step-running",
      lockedStepFetch := true, writesStepStatus := true },
    -- image.py 131-136: select_for_update().get, sets COMPLETED
    { location := "image.generate_images_for_run step-completed",
      lockedStepFetch := true, writesStepStatus := true },
    -- audio.py 170-177: select_for_update().get(id=step.id), sets RUNNING
    { location := "audio.generate_audio_for_run step-running",
      lockedStepFetch := true, writesStepStatus := true },
    -- audio.py 97-102: select_for_update().get(id=step.id), sets COMPLETED
    { location := "audio._finish_audio_step",
      lockedStepFetch := true, writesStepStatus := true },
    -- video.py 139-144: select_for_update().get(id=step.id), sets RUNNING
    { location := "video.generate_video_for_run step-running",
      lockedStepFetch := true, writesStepStatus := true },
    -- video.py 66-71: select_for_update().get(id=step.id), sets COMPLETED
    { location := "video._finish_video_step",
      lockedStepFetch := true, writesStepStatus := true } ]

theorem steps_get_set_same (st : Steps) (k : StepKind) (v : Option StepRec) :
    (st.set k v).get k = v := by
  cases k <;> rfl

theorem steps_get_set_ne (st : Steps) (k k' : StepKind) (v : Option StepRec) (h : k ≠ k') :
    (st.set k v).get k' = st.get k' := by
  cases k <;> cases k' <;> first | rfl | exact absurd rfl h

theorem prompts_get_set_same (p : Prompts) (m : Modality) (v : Option String) :
    (p.set m v).get m = v := by
  cases m <;> rfl

theorem prompts_get_set_ne (p : Prompts) (m m' : Modality) (v : Option String) (h : m ≠ m') :
    (p.set m v).get m' = p.get m' := by
  cases m <;> cases m' <;> first | rfl | exact absurd rfl h

theorem markStepFailed_run (k : StepKind) (msg : String) (now : Nat) (s : PState) :
    (markStepFailed k msg now s).run.status = .failed ∧
      (markStepFailed k msg now s).run.finishedAt = some now := by
  constructor <;> rfl

theorem markStepFailed_step (k : StepKind) (msg : String) (now : Nat) (s : PState)
    (r : StepRec) (h : s.steps.get k = some r) :
    (markStepFailed k msg now s).steps.get k =
      some { r with status := .failed, detail := msg, finishedAt := some now, updatedAt := now } := by
  simp only [markStepFailed, steps_get_set_same, h]
  rfl

theorem markStepFailed_assets (k : StepKind) (msg : String) (now : Nat) (s : PState) :
    (markStepFailed k msg now s).assets = s.assets := by
  rfl

theorem markRunFailed_spec (msg : String) (now : Nat) (s : PState) :
    (markRunFailed msg now s).run.status = .failed ∧
      (markRunFailed msg now s).run.finishedAt = some now ∧
      ((markRunFailed msg now s).steps.get .analyze).map StepRec.status = some .failed ∧
      ((markRunFailed msg now s).steps.get .analyze).map StepRec.detail = some msg ∧
      ((markRunFailed msg now s).steps.get .analyze).map StepRec.finishedAt = some (some now) := by
  unfold markRunFailed runAtomic markRunFailedOps
  simp only [if_pos, List.foldl]
  cases h : s.steps.get .analyze with
  | none =>
    simp [applyUpd, Steps.getOrCreate, h, steps_get_set_same]
  | some r =>
    simp [applyUpd, Steps.getOrCreate, h, steps_get_set_same]

theorem maybeFinalizeRun_frame (now : Nat) (s : PState) :
    (maybeFinalizeRun now s).steps = s.steps ∧
      (maybeFinalizeRun now s).prompts = s.prompts ∧
      (maybeFinalizeRun now s).assets = s.assets := by
  refine ⟨?_, ?_, ?_⟩ <;>
  · simp only [maybeFinalizeRun]
    split
    · rfl
    · split
      · rfl
      · split <;> rfl

theorem queueImageGeneration_frame (cfg : Settings) (now : Nat) (s : PState)
    (k : StepKind) (hk : StepKind.image ≠ k) :
    (queueImageGeneration cfg now s).1.run = s.run ∧
      (queueImageGeneration cfg now s).1.prompts = s.prompts ∧
      (queueImageGeneration cfg now s).1.assets = s.assets ∧
      (queueImageGeneration cfg now s).1.steps.get k = s.steps.get k := by
  simp only [queueImageGeneration, Steps.getOrCreate]
  cases h : s.steps.get .image with
  | none =>
    simp only [h]
    split
    · simp_all
    · split
      · simp_all
      · exact ⟨rfl, rfl, rfl, by
          simp [steps_get_set_same, steps_get_set_ne _ _ _ _ hk]⟩
  | some r =>
    simp only [h]
    split
    · exact ⟨rfl, rfl, rfl, rfl⟩
    · split
      · exact ⟨rfl, rfl, rfl, rfl⟩
      · exact ⟨rfl, rfl, rfl, by simp [steps_get_set_ne _ _ _ _ hk]⟩

theorem queueAudioGeneration_frame (cfg : Settings) (now : Nat) (s : PState)
    (k : StepKind) (hk : StepKind.audio ≠ k) :
    (queueAudioGeneration cfg now s).1.run = s.run ∧
      (queueAudioGeneration cfg now s).1.prompts = s.prompts ∧
      (queueAudioGeneration cfg now s).1.assets = s.assets ∧
      (queueAudioGeneration cfg now s).1.steps.get k = s.steps.get k := by
  simp only [queueAudioGeneration, Steps.getOrCreate]
  cases h : s.steps.get .audio with
  | none =>
    simp only [h]
    split
    · simp_all
    · split
      · simp_all
      · exact ⟨rfl, rfl, rfl, by
          simp [steps_get_set_same, steps_get_set_ne _ _ _ _ hk]⟩
  | some r =>
    simp only [h]
    split
    · exact ⟨rfl, rfl, rfl, rfl⟩
    · split
      · exact ⟨rfl, rfl, rfl, rfl⟩
      · exact ⟨rfl, rfl, rfl, by simp [steps_get_set_ne _ _ _ _ hk]⟩

theorem queueVideoGeneration_frame (cfg : Settings) (now : Nat) (s : PState)
    (k : StepKind) (hk : StepKind.video ≠ k) :
    (queueVideoGeneration cfg now s).1.run = s.run ∧
      (queueVideoGeneration cfg now s).1.prompts = s.prompts ∧
      (queueVideoGeneration cfg now s).1.assets = s.assets ∧
      (queueVideoGeneration cfg now s).1.steps.get k = s.steps.get k := by
  simp only [queueVideoGeneration, Steps.getOrCreate]
  cases h : s.steps.get .video with
  | none =>
    simp only [h]
    split
    · simp_all
    · split
      · simp_all
      · exact ⟨rfl, rfl, rfl, by
          simp [steps_get_set_same, steps_get_set_ne _ _ _ _ hk]⟩
  | some r =>
    simp only [h]
    split
    · exact ⟨rfl, rfl, rfl, rfl⟩
    · split
      · exact ⟨rfl, rfl, rfl, rfl⟩
      · exact ⟨rfl, rfl, rfl, by simp [steps_get_set_ne _ _ _ _ hk]⟩

theorem scheduleDownstreamGeneration_frame (cfg : Settings) (now : Nat) (s : PState) :
    (scheduleDownstreamGeneration cfg now s).1.run = s.run ∧
      (scheduleDownstreamGeneration cfg now s).1.prompts = s.prompts ∧
      (scheduleDownstreamGeneration cfg now s).1.steps.get .analyze = s.steps.get .analyze := by
  have gi : ∀ x : PState, (queueImageGeneration cfg now x).1.run = x.run ∧
      (queueImageGeneration cfg now x).1.prompts = x.prompts ∧
      (queueImageGeneration cfg now x).1.steps.get .analyze = x.steps.get .analyze := by
    intro x
    have h := queueImageGeneration_frame cfg now x .analyze (by simp)
    exact ⟨h.1, h.2.1, h.2.2.2⟩
  have ga : ∀ x : PState, (queueAudioGeneration cfg now x).1.run = x.run ∧
      (queueAudioGeneration cfg now x).1.prompts = x.prompts ∧
      (queueAudioGeneration cfg now x).1.steps.get .analyze = x.steps.get .analyze := by
    intro x
    have h := queueAudioGeneration_frame cfg now x .analyze (by simp)
    exact ⟨h.1, h.2.1, h.2.2.2⟩
  have gv : ∀ x : PState, (queueVideoGeneration cfg now x).1.run = x.run ∧
      (queueVideoGeneration cfg now x).1.prompts = x.prompts ∧
      (queueVideoGeneration cfg now x).1.steps.get .analyze = x.steps.get .analyze := by
    intro x
    have h := queueVideoGeneration_frame cfg now x .analyze (by simp)
    exact ⟨h.1, h.2.1, h.2.2.2⟩
  by_cases hi : Modality.image ∈ s.run.requestedModalities <;>
  by_cases ha : Modality.audio ∈ s.run.requestedModalities <;>
  by_cases hv : Modality.video ∈ s.run.requestedModalities <;>
  simp [scheduleDownstreamGeneration, hi, ha, hv, gi, ga, gv]

theorem isBlank_false_ne_none (o : Option String) (hb : isBlank o = false) : o ≠ none := by
  cases o with
  | none => simp [isBlank] at hb
  | some v => simp

theorem storePrompt_foldl_preserve (payload : Payload) (mods : List Modality) (pr : Prompts)
    (m : Modality) (hpr : pr.get m = payload.get m) :
    (mods.foldl (storePrompt payload) pr).get m = payload.get m := by
  induction mods generalizing pr with
  | nil => simpa using hpr
  | cons a l ih =>
    simp only [List.foldl_cons]
    apply ih
    unfold storePrompt
    by_cases hba : isBlank (payload.get a) = true
    · simp [hba, hpr]
    · simp only [hba, if_false]
      by_cases ham : a = m
      · subst ham
        simp [prompts_get_set_same]
      · simp [prompts_get_set_ne _ _ _ _ ham, hpr]

theorem storePrompt_foldl_mem (payload : Payload) (mods : List Modality) (pr : Prompts)
    (m : Modality) (hm : m ∈ mods) (hb : isBlank (payload.get m) = false) :
    (mods.foldl (storePrompt payload) pr).get m = payload.get m := by
  induction mods generalizing pr with
  | nil => cases hm
  | cons a l ih =>
    simp only [List.foldl_cons]
    rcases List.mem_cons.mp hm with h | h
    · subst h
      have hstep : storePrompt payload pr m = pr.set m (payload.get m) := by
        simp [storePrompt, hb]
      rw [hstep]
      exact storePrompt_foldl_preserve payload l _ m (prompts_get_set_same _ _ _)
    · exact ih (storePrompt payload pr a) h

/-- A video-only run right after its ANALYZE step completed, with the
VIDEO step still running. -/
def c1State : PState :=
  { run := { status := .running, requestedModalities := [Modality.video] },
    steps := { analyze := some { status := .completed },
               video := some { status := .running } } }

/-- C1: refuted as stated — run-level aggregation does NOT cover the VIDEO
step.  `_expected_step_kinds` never returns VIDEO (its body ends at the
stale comment "Video will be appended here once implemented." although
`src/runs/tasks/video.py` implements and schedules video generation), so
with video requested, ANALYZE completed and the VIDEO step still RUNNING,
`_maybe_finalize_run` marks the run COMPLETED instead of leaving it
RUNNING as the claim requires. -/
theorem c1_video_not_gated :
    (maybeFinalizeRun 5 c1State).run.status = RunStatus.completed ∧
      (expectedStepKinds [Modality.video]).contains StepKind.video = false := by
  exact ⟨rfl, rfl⟩

/-- A video-only run whose ANALYZE step completed and whose VIDEO step is
queued (PENDING) with its prompt stored. -/
def c3State : PState :=
  { run := { status := .running, requestedModalities := [Modality.video] },
    steps := { analyze := some { status := .completed },
               video := some { status := .pending } },
    prompts := { video := some "Storyboard prompt." } }

def c3Cfg : Settings := { googleApiKey := "g-key" }

def c3Env : VideoEnv := { generateOk := false }

/-- C3: refuted — a terminal run status is not absorbing.  For a
video-only run, `_maybe_finalize_run` marks the run COMPLETED while the
VIDEO step is still pending (video is not among the expected kinds), and
when the video task then fails on the provider call, `_mark_step_failed`
moves the run from COMPLETED to FAILED. -/
theorem c3_completed_run_moves_to_failed :
    (maybeFinalizeRun 3 c3State).run.status = RunStatus.completed ∧
      (generateVideoForRun c3Cfg c3Env 4 true (maybeFinalizeRun 3 c3State)).run.status
        = RunStatus.failed := by
  exact ⟨rfl, rfl⟩

/-- An audio-only run with ANALYZE completed and the AUDIO step failed. -/
def c7State : PState :=
  { run := { status := .running, requestedModalities := [Modality.audio] },
    steps := { analyze := some { status := .completed },
               audio := some { status := .failed } } }

/-- C7 counterexample: on an audio-only run with ANALYZE completed and
AUDIO failed, the package `_maybe_finalize_run` marks the run FAILED but
the legacy one (which does not expect the AUDIO step) marks it
COMPLETED, so the two pipelines do not agree. -/
theorem c7_counterexample :
    (maybeFinalizeRun 7 c7State).run.status = RunStatus.failed ∧
      (legacyMaybeFinalizeRun 7 c7State).run.status = RunStatus.completed := by
  exact ⟨rfl, rfl⟩

/-- C7 amended: the legacy and package finalization agree exactly on the
runs whose requested modalities do not include audio (video is expected
by neither, so only the AUDIO gate distinguishes them). -/
theorem c7_agree_without_audio (now : Nat) (s : PState)
    (h : s.run.requestedModalities.contains Modality.audio = false) :
    legacyMaybeFinalizeRun now s = maybeFinalizeRun now s := by
  have h2 : Modality.audio ∉ s.run.requestedModalities := by
    simpa using h
  have he : expectedStepKinds s.run.requestedModalities
      = legacyExpectedStepKinds s.run.requestedModalities := by
    simp [expectedStepKinds, legacyExpectedStepKinds, h2]
  simp only [maybeFinalizeRun, legacyMaybeFinalizeRun, he]

/-- An image-only run configuration used to witness `c7_agree_without_audio`. -/
def c7WitnessState : PState :=
  { run := { status := .running, requestedModalities := [Modality.image] },
    steps := { analyze := some { status := .completed },
               image := some { status := .running } } }

theorem c7_agree_without_audio_witness :
    legacyMaybeFinalizeRun 2 c7WitnessState = maybeFinalizeRun 2 c7WitnessState :=
  c7_agree_without_audio 2 c7WitnessState (by decide)

/-- C10 counterexample: the transactions of `_mark_run_failed` and
`_mark_step_failed` write a step status without fetching the step row
through `select_for_update`, so not every step-status transition of the
background tasks is protected by the row lock. -/
theorem c10_counterexample :
    (pipelineStepTxns.filter (fun t => t.writesStepStatus && !t.lockedStepFetch)).map
        StepTxn.location
      = ["common._mark_run_failed", "common._mark_step_failed"] := by
  rfl

/-- C10 amended: single-row locking via `select_for_update` does protect
every step-status transition of the background tasks except the two
failure-marking helpers `_mark_run_failed` and `_mark_step_failed`,
which save step rows without acquiring the row lock. -/
theorem c10_locking_outside_failure_helpers :
    ∀ t ∈ pipelineStepTxns, t.writesStepStatus = true →
      t.location ≠ "common._mark_run_failed" →
      t.location ≠ "common._mark_step_failed" →
      t.lockedStepFetch = true := by
  decide

theorem c10_locking_witness :
    (⟨"orchestrator._queue_audio_generation", true, true⟩ : StepTxn).lockedStepFetch = true :=
  c10_locking_outside_failure_helpers
    ⟨"orchestrator._queue_audio_generation", true, true⟩
    (by decide) rfl (by decide) (by decide)

def c2Cfg : Settings := { openaiApiKey := "sk-test" }

/-- An audio-only run with ANALYZE completed, the AUDIO step queued and
its narration prompt stored. -/
def c2State : PState :=
  { run := { status := .running, requestedModalities := [Modality.audio] },
    steps := { analyze := some { status := .completed },
               audio := some { status := .pending } },
    prompts := { audio := some "Narration script." } }

/-- C2 counterexample: when `client.audio.speech.create` raises an
`OpenAIError`, `generate_audio_for_run` does NOT mark the step failed —
it saves a placeholder mock WAV asset (`provider="mock"`, `mock=True`),
marks the AUDIO step COMPLETED, and the run even finalizes to COMPLETED. -/
theorem c2_counterexample :
    ((generateAudioForRun c2Cfg (.error "boom") "" 9 true c2State).steps.get .audio).map
        StepRec.status = some StepStatus.completed ∧
      (⟨Modality.audio, "mock", "gpt-4o-mini-tts (mock)", true⟩ : AssetRec)
        ∈ (generateAudioForRun c2Cfg (.error "boom") "" 9 true c2State).assets ∧
      (generateAudioForRun c2Cfg (.error "boom") "" 9 true c2State).run.status
        = RunStatus.completed := by
  refine ⟨rfl, ?_, rfl⟩
  decide

theorem markStepFailed_fields (k : StepKind) (msg : String) (now : Nat) (s : PState)
    (r : StepRec) (h : s.steps.get k = some r) :
    ((markStepFailed k msg now s).steps.get k).map StepRec.status = some .failed ∧
      ((markStepFailed k msg now s).steps.get k).map StepRec.detail = some msg := by
  rw [markStepFailed_step k msg now s r h]
  exact ⟨rfl, rfl⟩

/-- C2 amended: try/except-and-mark-failed describes only the image and
video steps — their provider errors mark the step FAILED with the error
detail and the run FAILED.  The audio step recovers instead: a provider
error makes it save a placeholder mock WAV asset and complete the step
successfully. -/
theorem c2_provider_error_handling :
    (∀ (cfg : Settings) (e : String) (now : Nat) (s : PState) (r : StepRec) (p : String),
      s.steps.get .image = some r → s.prompts.get .image = some p → cfg.openaiApiKey ≠ "" →
      ((generateImagesForRun cfg (.error e) now true s).steps.get .image).map StepRec.status
          = some .failed ∧
        ((generateImagesForRun cfg (.error e) now true s).steps.get .image).map StepRec.detail
          = some ("OpenAI error: " ++ e) ∧
        (generateImagesForRun cfg (.error e) now true s).run.status = .failed) ∧
    (∀ (cfg : Settings) (env : VideoEnv) (now : Nat) (s : PState) (r : StepRec) (p : String),
      s.steps.get .video = some r → s.prompts.get .video = some p → cfg.googleApiKey ≠ "" →
      env.clientInitOk = true → env.configOk = true → env.generateOk = false →
      ((generateVideoForRun cfg env now true s).steps.get .video).map StepRec.status
          = some .failed ∧
        ((generateVideoForRun cfg env now true s).steps.get .video).map StepRec.detail
          = some "Google Veo API error during video generation." ∧
        (generateVideoForRun cfg env now true s).run.status = .failed) ∧
    (∀ (cfg : Settings) (e dn : String) (now : Nat) (s : PState) (r : StepRec) (p : String),
      s.steps.get .audio = some r → s.prompts.get .audio = some p → cfg.openaiApiKey ≠ "" →
      ((generateAudioForRun cfg (.error e) dn now true s).steps.get .audio).map StepRec.status
          = some .completed ∧
        (⟨Modality.audio, "mock", cfg.openaiAudioModel ++ " (mock)", true⟩ : AssetRec)
          ∈ (generateAudioForRun cfg (.error e) dn now true s).assets) := by
  refine ⟨?_, ?_, ?_⟩
  · intro cfg e now s r p h1 h2 h3
    simp only [generateImagesForRun, h1, h2, Bool.not_true, Bool.false_eq_true, if_false,
      if_neg h3, Option.map_some']
    refine ⟨?_, ?_, rfl⟩ <;> simp [markStepFailed, steps_get_set_same]
  · intro cfg env now s r p h1 h2 h3 hc hcf hg
    simp only [generateVideoForRun, h1, h2, hc, hcf, hg, Bool.not_true, Bool.not_false,
      Bool.false_eq_true, if_false, if_true, if_neg h3, Option.map_some']
    refine ⟨?_, ?_, rfl⟩ <;> simp [markStepFailed, steps_get_set_same]
  · intro cfg e dn now s r p h1 h2 h3
    simp only [generateAudioForRun, h1, h2, Bool.not_true, Bool.false_eq_true, if_false,
      if_neg h3, Option.map_some', completeAudioWithMock, finishAudioStep]
    constructor
    · rw [(maybeFinalizeRun_frame _ _).1]
      simp [steps_get_set_same]
    · rw [(maybeFinalizeRun_frame _ _).2.2]
      simp

def c2ImgState : PState :=
  { run := { status := .running, requestedModalities := [Modality.image] },
    steps := { analyze := some { status := .completed },
               image := some { status := .pending } },
    prompts := { image := some "Render prompt." } }

def c2VidCfg : Settings := { googleApiKey := "g-key" }

def c2VidEnv : VideoEnv := { generateOk := false }

def c2VidState : PState :=
  { run := { status := .running, requestedModalities := [Modality.video] },
    steps := { analyze := some { status := .completed },
               video := some { status := .pending } },
    prompts := { video := some "Storyboard." } }

theorem c2_provider_error_handling_witness :
    (((generateImagesForRun c2Cfg (.error "boom") 4 true c2ImgState).steps.get .image).map
          StepRec.status = some .failed ∧
        ((generateImagesForRun c2Cfg (.error "boom") 4 true c2ImgState).steps.get .image).map
          StepRec.detail = some ("OpenAI error: " ++ "boom") ∧
        (generateImagesForRun c2Cfg (.error "boom") 4 true c2ImgState).run.status = .failed) ∧
      (((generateVideoForRun c2VidCfg c2VidEnv 4 true c2VidState).steps.get .video).map
          StepRec.status = some .failed ∧
        ((generateVideoForRun c2VidCfg c2VidEnv 4 true c2VidState).steps.get .video).map
          StepRec.detail = some "Google Veo API error during video generation." ∧
        (generateVideoForRun c2VidCfg c2VidEnv 4 true c2VidState).run.status = .failed) ∧
      (((generateAudioForRun c2Cfg (.error "boom") "" 9 true c2State).steps.get .audio).map
          StepRec.status = some .completed ∧
        (⟨Modality.audio, "mock", c2Cfg.openaiAudioModel ++ " (mock)", true⟩ : AssetRec)
          ∈ (generateAudioForRun c2Cfg (.error "boom") "" 9 true c2State).assets) :=
  ⟨c2_provider_error_handling.1 c2Cfg "boom" 4 c2ImgState _ "Render prompt." rfl rfl
      (by decide),
    c2_provider_error_handling.2.1 c2VidCfg c2VidEnv 4 c2VidState _ "Storyboard." rfl rfl
      (by decide) rfl rfl rfl,
    c2_provider_error_handling.2.2 c2Cfg "boom" "" 9 c2State _ "Narration script." rfl rfl
      (by decide)⟩

/-- C6: `_mark_run_failed` is transactional and atomic — when its
transaction commits, both effects are applied (run FAILED with
`finished_at`, ANALYZE step FAILED with the message and `finished_at`);
when it aborts, the database state is exactly unchanged. -/
theorem c6_markRunFailed_atomic (msg : String) (now : Nat) (s : PState) (commit : Bool) :
    (commit = false → runAtomic (markRunFailedOps msg now) commit s = s) ∧
      (commit = true →
        (runAtomic (markRunFailedOps msg now) commit s).run.status = .failed ∧
          (runAtomic (markRunFailedOps msg now) commit s).run.finishedAt = some now ∧
          ((runAtomic (markRunFailedOps msg now) commit s).steps.get .analyze).map
            StepRec.status = some .failed ∧
          ((runAtomic (markRunFailedOps msg now) commit s).steps.get .analyze).map
            StepRec.detail = some msg ∧
          ((runAtomic (markRunFailedOps msg now) commit s).steps.get .analyze).map
            StepRec.finishedAt = some (some now)) := by
  constructor
  · intro h
    subst h
    rfl
  · intro h
    subst h
    exact markRunFailed_spec msg now s

def c6State : PState := { run := { status := .running } }

theorem c6_markRunFailed_atomic_witness :
    runAtomic (markRunFailedOps "Database gone." 3) false c6State = c6State ∧
      (runAtomic (markRunFailedOps "Database gone." 3) true c6State).run.status = .failed :=
  ⟨(c6_markRunFailed_atomic "Database gone." 3 c6State false).1 rfl,
    ((c6_markRunFailed_atomic "Database gone." 3 c6State true).2 rfl).1⟩

/-- C5: when the run row is missing, `generate_prompts_for_run` returns
with no state change, no enqueued task and no provider call; when the
OpenAI key is unset, or the key is set but the modalities list is empty,
it marks the run FAILED with `finished_at` and the ANALYZE step FAILED
with the corresponding message, without calling the provider. -/
theorem c5_orchestrator_guards (cfg : Settings) (pr : Except String (Option String))
    (pa : Except String Payload) (now : Nat) (mods : List Modality) (s : PState) :
    (generatePromptsForRun cfg pr pa now false mods s = ⟨s, [], false⟩) ∧
      (cfg.openaiApiKey = "" →
        (generatePromptsForRun cfg pr pa now true mods s).state.run.status = .failed ∧
          (generatePromptsForRun cfg pr pa now true mods s).state.run.finishedAt = some now ∧
          ((generatePromptsForRun cfg pr pa now true mods s).state.steps.get .analyze).map
            StepRec.status = some .failed ∧
          ((generatePromptsForRun cfg pr pa now true mods s).state.steps.get .analyze).map
            StepRec.detail = some "OpenAI API key is not configured." ∧
          (generatePromptsForRun cfg pr pa now true mods s).tasks = [] ∧
          (generatePromptsForRun cfg pr pa now true mods s).calledProvider = false) ∧
      (cfg.openaiApiKey ≠ "" → mods = [] →
        (generatePromptsForRun cfg pr pa now true mods s).state.run.status = .failed ∧
          (generatePromptsForRun cfg pr pa now true mods s).state.run.finishedAt = some now ∧
          ((generatePromptsForRun cfg pr pa now true mods s).state.steps.get .analyze).map
            StepRec.status = some .failed ∧
          ((generatePromptsForRun cfg pr pa now true mods s).state.steps.get .analyze).map
            StepRec.detail = some "At least one modality must be requested." ∧
          (generatePromptsForRun cfg pr pa now true mods s).tasks = [] ∧
          (generatePromptsForRun cfg pr pa now true mods s).calledProvider = false) := by
  refine ⟨rfl, ?_, ?_⟩
  · intro h
    simp only [generatePromptsForRun, Bool.not_true, Bool.false_eq_true, if_false, if_pos h]
    have hs := markRunFailed_spec "OpenAI API key is not configured." now s
    exact ⟨hs.1, hs.2.1, hs.2.2.1, hs.2.2.2.1, trivial, trivial⟩
  · intro h hm
    subst hm
    simp only [generatePromptsForRun, Bool.not_true, Bool.false_eq_true, if_false, if_neg h,
      List.isEmpty_nil, if_true]
    have hs := markRunFailed_spec "At least one modality must be requested." now s
    exact ⟨hs.1, hs.2.1, hs.2.2.1, hs.2.2.2.1, trivial, trivial⟩

def c5Cfg : Settings := { openaiApiKey := "sk-live" }

def c5State : PState := { run := { status := .pending } }

theorem c5_orchestrator_guards_witness :
    generatePromptsForRun c5Cfg (.ok none) (.error "nope") 6 false [Modality.image] c5State
        = ⟨c5State, [], false⟩ ∧
      (generatePromptsForRun ({} : Settings) (.ok none) (.error "nope") 6 true
          [Modality.image] c5State).state.run.status = .failed ∧
      (generatePromptsForRun c5Cfg (.ok none) (.error "nope") 6 true [] c5State).state.run.status
        = .failed :=
  ⟨(c5_orchestrator_guards c5Cfg (.ok none) (.error "nope") 6 [Modality.image] c5State).1,
    ((c5_orchestrator_guards ({} : Settings) (.ok none) (.error "nope") 6 [Modality.image]
        c5State).2.1 rfl).1,
    ((c5_orchestrator_guards c5Cfg (.ok none) (.error "nope") 6 [] c5State).2.2
        (by decide) rfl).1⟩

/-- C9: `truncate_to_limit` returns `""` for blank input or a
non-positive limit, returns the stripped text unchanged when its token
count is within the limit, and otherwise returns the decoding of exactly
the first `limit` tokens, right-stripped, with the truncation marker
appended. -/
theorem c9_truncateToLimit_spec (enc : Encoding) (text : String) (limit : Int) :
    (pyStrip text = "" ∨ limit ≤ 0 → truncateToLimit enc text limit = "") ∧
      (pyStrip text ≠ "" → 0 < limit → ((enc.encode (pyStrip text)).length : Int) ≤ limit →
        truncateToLimit enc text limit = pyStrip text) ∧
      (pyStrip text ≠ "" → 0 < limit → limit < ((enc.encode (pyStrip text)).length : Int) →
        truncateToLimit enc text limit
          = pyRstrip (enc.decode ((enc.encode (pyStrip text)).take limit.toNat))
              ++ "\n[truncated]") := by
  refine ⟨?_, ?_, ?_⟩
  · intro h
    simp only [truncateToLimit]
    rw [if_pos h]
  · intro h1 h2 h3
    simp only [truncateToLimit]
    rw [if_neg (not_or.mpr ⟨h1, not_le.mpr h2⟩), if_pos h3]
  · intro h1 h2 h3
    simp only [truncateToLimit]
    rw [if_neg (not_or.mpr ⟨h1, not_le.mpr h2⟩), if_neg (not_le.mpr h3)]

/-- A concrete toy tokenizer (one token per character) used to witness
`c9_truncateToLimit_spec`. -/
def c9Enc : Encoding :=
  { encode := fun s => s.data.map Char.toNat,
    decode := fun l => String.mk (l.map Char.ofNat) }

theorem c9_truncateToLimit_spec_witness :
    truncateToLimit c9Enc "   " 5 = "" ∧
      truncateToLimit c9Enc " ab " 5 = pyStrip " ab " ∧
      truncateToLimit c9Enc "  ab  " 1
        = pyRstrip (c9Enc.decode ((c9Enc.encode (pyStrip "  ab  ")).take (1 : Int).toNat))
            ++ "\n[truncated]" :=
  ⟨(c9_truncateToLimit_spec c9Enc "   " 5).1 (Or.inl (by decide)),
    (c9_truncateToLimit_spec c9Enc " ab " 5).2.1 (by decide) (by decide) (by decide),
    (c9_truncateToLimit_spec c9Enc "  ab  " 1).2.2 (by decide) (by decide) (by decide)⟩

theorem steps_set_set (st : Steps) (k : StepKind) (a b : Option StepRec) :
    (st.set k a).set k b = st.set k b := by
  cases k <;> rfl

/-- C8: each `_queue_*_generation` is a guarded reset.  A step already
RUNNING or COMPLETED is left entirely unchanged and nothing is enqueued;
otherwise the step (created PENDING when absent) is reset to PENDING with
the queue detail, cleared `started_at` / `finished_at`, a touched
`updated_at`, every other field and row untouched, and exactly one
generation task is enqueued. -/
theorem c8_queue_guarded_reset (cfg : Settings) (now : Nat) (s : PState) :
    ((∀ r : StepRec, s.steps.get .image = some r →
        r.status = .running ∨ r.status = .completed →
        queueImageGeneration cfg now s = (s, [])) ∧
      (∀ r : StepRec, s.steps.get .image = some r →
        r.status ≠ .running → r.status ≠ .completed →
        queueImageGeneration cfg now s =
          ({ s with steps := s.steps.set .image (some { r with
              status := .pending, detail := imageQueueDetail cfg s.run.params,
              startedAt := none, finishedAt := none, updatedAt := now }) }, [TaskKind.genImages])) ∧
      (s.steps.get .image = none →
        queueImageGeneration cfg now s =
          ({ s with steps := s.steps.set .image (some {
              status := .pending, detail := imageQueueDetail cfg s.run.params,
              startedAt := none, finishedAt := none, createdAt := now, updatedAt := now }) },
            [TaskKind.genImages]))) ∧
    ((∀ r : StepRec, s.steps.get .audio = some r →
        r.status = .running ∨ r.status = .completed →
        queueAudioGeneration cfg now s = (s, [])) ∧
      (∀ r : StepRec, s.steps.get .audio = some r →
        r.status ≠ .running → r.status ≠ .completed →
        queueAudioGeneration cfg now s =
          ({ s with steps := s.steps.set .audio (some { r with
              status := .pending, detail := audioQueueDetail cfg s.run.params,
              startedAt := none, finishedAt := none, updatedAt := now }) }, [TaskKind.genAudio])) ∧
      (s.steps.get .audio = none →
        queueAudioGeneration cfg now s =
          ({ s with steps := s.steps.set .audio (some {
              status := .pending, detail := audioQueueDetail cfg s.run.params,
              startedAt := none, finishedAt := none, createdAt := now, updatedAt := now }) },
            [TaskKind.genAudio]))) ∧
    ((∀ r : StepRec, s.steps.get .video = some r →
        r.status = .running ∨ r.status = .completed →
        queueVideoGeneration cfg now s = (s, [])) ∧
      (∀ r : StepRec, s.steps.get .video = some r →
        r.status ≠ .running → r.status ≠ .completed →
        queueVideoGeneration cfg now s =
          ({ s with steps := s.steps.set .video (some { r with
              status := .pending, detail := videoQueueDetail cfg s.run.params,
              startedAt := none, finishedAt := none, updatedAt := now }) }, [TaskKind.genVideo])) ∧
      (s.steps.get .video = none →
        queueVideoGeneration cfg now s =
          ({ s with steps := s.steps.set .video (some {
              status := .pending, detail := videoQueueDetail cfg s.run.params,
              startedAt := none, finishedAt := none, createdAt := now, updatedAt := now }) },
            [TaskKind.genVideo]))) := by
  refine ⟨⟨?_, ?_, ?_⟩, ⟨?_, ?_, ?_⟩, ⟨?_, ?_, ?_⟩⟩
  · intro r hr hst
    rcases hst with h | h <;> simp [queueImageGeneration, Steps.getOrCreate, hr, h]
  · intro r hr h1 h2
    simp only [queueImageGeneration, Steps.getOrCreate, hr, if_neg h1, if_neg h2]
  · intro h
    simp only [queueImageGeneration, Steps.getOrCreate, h]
    simp [steps_set_set]
  · intro r hr hst
    rcases hst with h | h <;> simp [queueAudioGeneration, Steps.getOrCreate, hr, h]
  · intro r hr h1 h2
    simp only [queueAudioGeneration, Steps.getOrCreate, hr, if_neg h1, if_neg h2]
  · intro h
    simp only [queueAudioGeneration, Steps.getOrCreate, h]
    simp [steps_set_set]
  · intro r hr hst
    rcases hst with h | h <;> simp [queueVideoGeneration, Steps.getOrCreate, hr, h]
  · intro r hr h1 h2
    simp only [queueVideoGeneration, Steps.getOrCreate, hr, if_neg h1, if_neg h2]
  · intro h
    simp only [queueVideoGeneration, Steps.getOrCreate, h]
    simp [steps_set_set]

def c8Cfg : Settings := { openaiApiKey := "sk-q" }

/-- A run whose IMAGE step is running (queue must be a no-op), whose
AUDIO step failed (queue must reset it) and with no VIDEO step yet
(queue must create it). -/
def c8State : PState :=
  { run := { status := .running,
             requestedModalities := [Modality.image, Modality.audio, Modality.video] },
    steps := { image := some { status := .running },
               audio := some { status := .failed } } }

theorem c8_queue_guarded_reset_witness :
    queueImageGeneration c8Cfg 5 c8State = (c8State, []) ∧
      (queueAudioGeneration c8Cfg 5 c8State).2 = [TaskKind.genAudio] ∧
      (queueVideoGeneration c8Cfg 5 c8State).2 = [TaskKind.genVideo] :=
  ⟨(c8_queue_guarded_reset c8Cfg 5 c8State).1.1 { status := .running } rfl (Or.inl rfl),
    by rw [(c8_queue_guarded_reset c8Cfg 5 c8State).2.1.2.1 { status := .failed } rfl
      (by decide) (by decide)],
    by rw [(c8_queue_guarded_reset c8Cfg 5 c8State).2.2.2.2 rfl]⟩

theorem persistPromptsAndSchedule_spec (cfg : Settings) (payload : Payload) (now : Nat)
    (mods : List Modality) (s1 : PState) (a : StepRec)
    (ha : s1.steps.get .analyze = some a) :
    ((persistPromptsAndSchedule cfg payload now mods s1).tasks ≠ [] →
      ((persistPromptsAndSchedule cfg payload now mods s1).state.steps.get .analyze).map
          StepRec.status = some .completed ∧
        ∃ m : Modality,
          (persistPromptsAndSchedule cfg payload now mods s1).state.prompts.get m ≠ none) ∧
      (mods.countP (fun m => !(isBlank (payload.get m))) = 0 →
        (persistPromptsAndSchedule cfg payload now mods s1).tasks = []) := by
  by_cases hsaved : mods.countP (fun m => !(isBlank (payload.get m))) = 0
  · constructor
    · intro h
      exfalso
      apply h
      simp [persistPromptsAndSchedule, hsaved]
    · intro _
      simp [persistPromptsAndSchedule, hsaved]
  · constructor
    · intro _
      constructor
      · simp only [persistPromptsAndSchedule, if_neg hsaved]
        rw [(maybeFinalizeRun_frame _ _).1]
        rw [(scheduleDownstreamGeneration_frame _ _ _).2.2]
        simp [steps_get_set_same, ha]
      · obtain ⟨m, hm, hmb⟩ : ∃ m ∈ mods, (!(isBlank (payload.get m))) = true := by
          by_contra hcon
          exact hsaved (List.countP_eq_zero.mpr fun x hx hpx => hcon ⟨x, hx, hpx⟩)
        refine ⟨m, ?_⟩
        simp only [persistPromptsAndSchedule, if_neg hsaved]
        rw [(maybeFinalizeRun_frame _ _).2.1]
        rw [(scheduleDownstreamGeneration_frame _ _ _).2.1]
        rw [storePrompt_foldl_mem payload mods s1.prompts m hm (by simpa using hmb)]
        exact isBlank_false_ne_none _ (by simpa using hmb)
    · intro h0
      exact absurd h0 hsaved

/-- C4: downstream generation tasks are enqueued only from the success
tail of `generate_prompts_for_run`, after the ANALYZE step was set to
COMPLETED with at least one prompt persisted; every failure path of the
task (missing run, missing key, empty modalities, provider error, blank
or unparseable response, zero saved prompts) enqueues nothing. -/
theorem c4_downstream_after_analyze (cfg : Settings) (pr : Except String (Option String))
    (pa : Except String Payload) (now : Nat) (found : Bool) (mods : List Modality)
    (s : PState) :
    ((generatePromptsForRun cfg pr pa now found mods s).tasks ≠ [] →
      ((generatePromptsForRun cfg pr pa now found mods s).state.steps.get .analyze).map
          StepRec.status = some .completed ∧
        ∃ m : Modality,
          (generatePromptsForRun cfg pr pa now found mods s).state.prompts.get m ≠ none) ∧
      (found = false → (generatePromptsForRun cfg pr pa now found mods s).tasks = []) ∧
      (cfg.openaiApiKey = "" → (generatePromptsForRun cfg pr pa now found mods s).tasks = []) ∧
      (mods = [] → (generatePromptsForRun cfg pr pa now found mods s).tasks = []) ∧
      (∀ e, pr = .error e → (generatePromptsForRun cfg pr pa now found mods s).tasks = []) ∧
      (∀ t, pr = .ok t → isBlank t = true →
        (generatePromptsForRun cfg pr pa now found mods s).tasks = []) ∧
      (∀ e, pa = .error e → (generatePromptsForRun cfg pr pa now found mods s).tasks = []) ∧
      (∀ payload, pa = .ok payload →
        mods.countP (fun m => !(isBlank (payload.get m))) = 0 →
        (generatePromptsForRun cfg pr pa now found mods s).tasks = []) := by
  cases found with
  | false =>
    refine ⟨fun h => absurd rfl h, fun _ => rfl, fun _ => rfl, fun _ => rfl,
      fun _ _ => rfl, fun _ _ _ => rfl, fun _ _ => rfl, fun _ _ _ => rfl⟩
  | true =>
    by_cases hk : cfg.openaiApiKey = ""
    · have ht : (generatePromptsForRun cfg pr pa now true mods s).tasks = [] := by
        simp [generatePromptsForRun, hk]
      exact ⟨fun h => absurd ht h, fun _ => ht, fun _ => ht, fun _ => ht,
        fun _ _ => ht, fun _ _ _ => ht, fun _ _ => ht, fun _ _ _ => ht⟩
    · cases mods with
      | nil =>
        have ht : (generatePromptsForRun cfg pr pa now true [] s).tasks = [] := by
          simp [generatePromptsForRun, hk]
        exact ⟨fun h => absurd ht h, fun _ => ht, fun _ => ht, fun _ => ht,
          fun _ _ => ht, fun _ _ _ => ht, fun _ _ => ht, fun _ _ _ => ht⟩
      | cons m0 mrest =>
        cases pr with
        | error e0 =>
          have ht : (generatePromptsForRun cfg (.error e0) pa now true (m0 :: mrest) s).tasks
              = [] := by
            simp [generatePromptsForRun, hk]
          exact ⟨fun h => absurd ht h, fun _ => ht, fun _ => ht, fun _ => ht,
            fun _ _ => ht, fun _ _ _ => ht, fun _ _ => ht, fun _ _ _ => ht⟩
        | ok t0 =>
          by_cases hb : isBlank t0 = true
          · have ht : (generatePromptsForRun cfg (.ok t0) pa now true (m0 :: mrest) s).tasks
                = [] := by
              simp [generatePromptsForRun, hk, hb]
            exact ⟨fun h => absurd ht h, fun _ => ht, fun _ => ht, fun _ => ht,
              fun _ _ => ht, fun _ _ _ => ht, fun _ _ => ht, fun _ _ _ => ht⟩
          · cases pa with
            | error e1 =>
              have ht : (generatePromptsForRun cfg (.ok t0) (.error e1) now true
                  (m0 :: mrest) s).tasks = [] := by
                simp [generatePromptsForRun, hk, hb]
              exact ⟨fun h => absurd ht h, fun _ => ht, fun _ => ht, fun _ => ht,
                fun _ _ => ht, fun t ht2 hbt => by cases ht2; exact absurd hbt hb,
                fun _ _ => ht, fun _ _ _ => ht⟩
            | ok payload =>
              have hsome : ((markAnalyzeRunning cfg now (m0 :: mrest) s).steps.get
                  .analyze).isSome := by
                cases h0 : s.steps.get .analyze <;>
                simp [markAnalyzeRunning, Steps.getOrCreate, h0, steps_get_set_same]
              obtain ⟨a, ha⟩ := Option.isSome_iff_exists.mp hsome
              have hspec := persistPromptsAndSchedule_spec cfg payload now (m0 :: mrest)
                (markAnalyzeRunning cfg now (m0 :: mrest) s) a ha
              have hred : generatePromptsForRun cfg (.ok t0) (.ok payload) now true
                  (m0 :: mrest) s
                  = persistPromptsAndSchedule cfg payload now (m0 :: mrest)
                      (markAnalyzeRunning cfg now (m0 :: mrest) s) := by
                simp [generatePromptsForRun, hk, hb]
              refine ⟨?_, ?_, ?_, ?_, ?_, ?_, ?_, ?_⟩
              · rw [hred]
                exact hspec.1
              · intro hc
                exact Bool.noConfusion hc
              · intro hc
                exact absurd hc hk
              · intro hc
                exact List.noConfusion hc
              · intro e he
                exact Except.noConfusion he
              · intro t ht2 hbt
                cases ht2
                exact absurd hbt hb
              · intro e he
                exact Except.noConfusion he
              · intro pl hpl h0
                cases hpl
                rw [hred]
                exact hspec.2 h0

def c4Cfg : Settings := { openaiApiKey := "sk-c4" }

def c4State : PState :=
  { run := { status := .pending, requestedModalities := [Modality.image] } }

def c4Payload : Payload := { imagePrompt := some "An image prompt." }

theorem c4_downstream_after_analyze_witness :
    (generatePromptsForRun c4Cfg (.ok (some "ok-json")) (.ok c4Payload) 3 true
        [Modality.image] c4State).tasks ≠ [] ∧
      ((generatePromptsForRun c4Cfg (.ok (some "ok-json")) (.ok c4Payload) 3 true
          [Modality.image] c4State).state.steps.get .analyze).map StepRec.status
        = some .completed :=
  ⟨by decide,
    ((c4_downstream_after_analyze c4Cfg (.ok (some "ok-json")) (.ok c4Payload) 3 true
        [Modality.image] c4State).1 (by decide)).1⟩
